import Mathlib

/-!
Verification of the task-execution and orchestration engine of the `mob`
build/dependency orchestrator (`src/tasks/task.cpp`, `src/tools/git.cpp`).

Shallow embedding conventions:
* C++ byte strings become `List Char` (only ASCII behaviour is relied on by
  the source); `std::string` values used opaquely become `String`.
* Global mutable configuration (`conf().global()`, `conf().task(...)`) is
  passed explicitly as a `Global` / field parameter.
* Exceptions (`bailed`, `interrupted`, process failure) become `Except`
  results or explicit result constructors.
* External collaborators (the `std::regex` engine, the filesystem, the
  spawned `git` process) are abstracted: regex compilation is a function
  parameter, the filesystem marker (`<dest>/.git`) is a boolean input, and
  external process invocations are recorded as events rather than executed.
-/

namespace Mob

/-! ### Name matching (`task::strings_match`, `task::name_matches_*`) -/

/-- C `tolower` on an unsigned char in the "C" locale: lowercases `A`–`Z`,
leaves everything else unchanged (matches `std::tolower(static_cast<unsigned char>(c))`
as used in `task::strings_match`). -/
def cTolower (c : Char) : Char :=
  if 65 ≤ c.toNat ∧ c.toNat ≤ 90 then Char.ofNat (c.toNat + 32) else c

/-- One loop iteration of `task::strings_match`: dash and underscore are
mutually interchangeable, everything else compares case-insensitively. -/
def charMatch (a b : Char) : Bool :=
  if (a = '-' ∨ a = '_') ∧ (b = '-' ∨ b = '_') then true
  else decide (cTolower a = cTolower b)

/-- `task::strings_match(a, b)`: equal length required, then the position-wise
comparison `charMatch` at every index. -/
def strings_match (a b : List Char) : Bool :=
  if a.length ≠ b.length then false
  else (a.zip b).all fun p => charMatch p.1 p.2

/-- `task::name_matches_string(pattern)`: exact matching of the pattern
against every alias in `names_`. -/
def name_matches_string (names : List (List Char)) (pattern : List Char) : Bool :=
  names.any fun n => strings_match n pattern

/-- Result of `task::name_matches`: either a boolean, or the fatal `bailed`
signal thrown by `name_matches_glob` after writing a diagnostic to stderr
(the carried string is the emitted diagnostic). -/
inductive NameMatchResult where
  | ok (b : Bool)
  | bailed (diag : String)
deriving DecidableEq

/-- `replace_all` for a single-character needle, as used on the glob path
(`"*"` → `".*"` and `"_"` → `"-"`). -/
def replaceAllChar (s : List Char) (a : Char) (b : List Char) : List Char :=
  match s with
  | [] => []
  | c :: cs => (if c = a then b else [c]) ++ replaceAllChar cs a b

/-- The fixed pattern built by `task::name_matches_glob`: first `'*'`
becomes `".*"`, then `'_'` becomes `'-'`. -/
def fixGlob (p : List Char) : List Char :=
  replaceAllChar (replaceAllChar p '*' ['.', '*']) '_' ['-']

/-- The fixed alias compared on the glob path: `'_'` becomes `'-'`. -/
def fixName (n : List Char) : List Char :=
  replaceAllChar n '_' ['-']

/-- The diagnostic `name_matches_glob` writes to stderr before throwing
`bailed` on a pattern that fails to compile. -/
def badGlobDiag (pattern : List Char) : String :=
  "bad glob '" ++ String.mk pattern ++ "'\n" ++
  "globs are actually bastardized regexes where '*' is " ++
  "replaced by '.*', so don't push it\n"

/-- `task::name_matches_glob(pattern)`. The `std::regex` engine is an
external collaborator: `compile` maps the fixed pattern either to a matcher
(case-insensitive `regex_match`, abstracted as a predicate on the fixed
alias) or to `none` when construction throws. On a compilation failure the
function emits the diagnostic and throws `bailed`. -/
def name_matches_glob (compile : List Char → Option (List Char → Bool))
    (names : List (List Char)) (pattern : List Char) : NameMatchResult :=
  match compile (fixGlob pattern) with
  | some re => .ok (names.any fun n => re (fixName n))
  | none => .bailed (badGlobDiag pattern)

/-- `task::name_matches(pattern)`: glob path when the pattern contains `'*'`,
exact path otherwise. -/
def name_matches (compile : List Char → Option (List Char → Bool))
    (names : List (List Char)) (pattern : List Char) : NameMatchResult :=
  if pattern.contains '*' then name_matches_glob compile names pattern
  else .ok (name_matches_string names pattern)

/-- Spec-side statement of exact matching (C3's wording): equal lengths, and
at every position either both characters are dash/underscore or the two
characters are equal case-insensitively. Compared against `strings_match`. -/
def specExactMatch (a p : List Char) : Prop :=
  a.length = p.length ∧
    ∀ q ∈ a.zip p,
      ((q.1 = '-' ∨ q.1 = '_') ∧ (q.2 = '-' ∨ q.2 = '_')) ∨
        cTolower q.1 = cTolower q.2

instance (a p : List Char) : Decidable (specExactMatch a p) := by
  unfold specExactMatch; infer_instance

/-! ### Clean flags (`task::clean`, `make_clean_flags`, `to_string`) -/

/-- `task::clean::nothing`. Modelled from the spec: the enum constants live
in `task.h`, which is outside the inspected sources; the spec describes
`clean` as a bitmask over {redownload, reextract, reconfigure, rebuild}
combined with bitwise OR and `nothing` as the zero value, so the four flags
are distinct single bits. -/
def clean_nothing : Nat := 0

/-- `task::clean::redownload` (bit 0, see `clean_nothing`). -/
def clean_redownload : Nat := 1

/-- `task::clean::reextract` (bit 1, see `clean_nothing`). -/
def clean_reextract : Nat := 2

/-- `task::clean::reconfigure` (bit 2, see `clean_nothing`). -/
def clean_reconfigure : Nat := 4

/-- `task::clean::rebuild` (bit 3, see `clean_nothing`). -/
def clean_rebuild : Nat := 8

/-- `is_set(c, f)` from the enum-operators utility header (outside the
inspected sources). Modelled from the spec: tests that the flag's bits are
set in the bitmask. -/
def is_set (c f : Nat) : Bool := c &&& f == f

/-- The process-wide boolean switches read through `conf().global()`:
the clean sub-flags {redownload, reextract, reconfigure, rebuild} and the
phase switches {clean, fetch, build}. -/
structure Global where
  redownload : Bool
  reextract : Bool
  reconfigure : Bool
  rebuild : Bool
  clean : Bool
  fetch : Bool
  build : Bool
deriving DecidableEq

/-- `make_clean_flags()`: combines the clean flags depending on the global
configuration, starting from `nothing` and OR-ing in each enabled flag. -/
def make_clean_flags (g : Global) : Nat :=
  let c := clean_nothing
  let c := if g.redownload then c ||| clean_redownload else c
  let c := if g.reextract then c ||| clean_reextract else c
  let c := if g.reconfigure then c ||| clean_reconfigure else c
  let c := if g.rebuild then c ||| clean_rebuild else c
  c

/-- `to_string(task::clean)`: collects the names of the set flags in the
fixed order redownload, reextract, reconfigure, rebuild and joins them
with `"|"`. -/
def to_string (c : Nat) : String :=
  let v : List String := []
  let v := if is_set c clean_redownload then v ++ ["redownload"] else v
  let v := if is_set c clean_reextract then v ++ ["reextract"] else v
  let v := if is_set c clean_reconfigure then v ++ ["reconfigure"] else v
  let v := if is_set c clean_rebuild then v ++ ["rebuild"] else v
  String.intercalate "|" v

/-! ### The git sync tool (`git::do_run`, `do_clone`, `do_pull`,
`do_clone_or_pull` in `src/tools/git.cpp`) -/

/-- `git::ops`: the operation mode, fixed at construction. -/
inductive GitOps where
  | clone
  | pull
  | clone_or_pull2
deriving DecidableEq

/-- Externally observable operations of one `git` tool run: the optional
pre-step directory deletion, and the spawned `git clone` / `git pull`
processes (recorded, not executed; the process outcome is a collaborator
concern). -/
inductive GitEvent where
  | deleteDir
  | cloneExec
  | pullExec
deriving DecidableEq

/-- The tool's parameters: `url_`, `branch_`, `where_`. -/
structure GitParams where
  url : String
  branch : String
  whereDir : String
deriving DecidableEq

/-- `git::do_clone()`: if `<where_>/.git` exists, trace and return `false`
without cloning; otherwise spawn `git clone` and return `true`. The marker
existence check is the boolean input. -/
def do_clone (marker : Bool) : List GitEvent × Bool :=
  if marker then ([], false) else ([GitEvent.cloneExec], true)

/-- `git::do_pull()`: unconditionally spawn `git pull` in `where_`. -/
def do_pull : List GitEvent := [GitEvent.pullExec]

/-- `git::do_clone_or_pull()`: attempt the clone; if `do_clone` reports the
marker already exists (returns `false`), pull instead. -/
def do_clone_or_pull (marker : Bool) : List GitEvent :=
  let r := do_clone marker
  if r.2 then r.1 else r.1 ++ do_pull

/-- Whether `<where_>/.git` still exists when `do_clone` checks it: the
pre-step of `do_run` deletes the destination directory (marker included)
when the redownload or reextract switch is set. -/
def marker_after_prestep (g : Global) (markerInit : Bool) : Bool :=
  if g.redownload || g.reextract then false else markerInit

/-- `git::do_run()`: bails out when `url_` or `where_` is empty, optionally
deletes the destination directory, then dispatches on the operation mode.
Returns the list of performed external operations in order, and either
success or the `bailed` signal (whose message is the carried string). -/
def git_do_run (p : GitParams) (op : GitOps) (g : Global) (markerInit : Bool) :
    List GitEvent × Except String Unit :=
  if p.url = "" ∨ p.whereDir = "" then ([], .error "git missing parameters")
  else
    let pre : List GitEvent :=
      if g.redownload || g.reextract then [GitEvent.deleteDir] else []
    let marker := marker_after_prestep g markerInit
    match op with
    | .clone => (pre ++ (do_clone marker).1, .ok ())
    | .pull => (pre ++ do_pull, .ok ())
    | .clone_or_pull2 => (pre ++ do_clone_or_pull marker, .ok ())

/-! ### Task lifecycle (`task::run`, `clean_task`, `fetch`,
`build_and_install`, `check_interrupted`) -/

/-- The task-specific hooks a `task::run` may invoke (`do_clean` with the
computed flags, `do_fetch`, `do_build_and_install`) plus the patch tool run
from `fetch`. -/
inductive Hook where
  | doClean (flags : Nat)
  | doFetch
  | doBuildAndInstall
  | patch
deriving DecidableEq

/-- The environment one `task::run` executes in: the global switches, the
task-scoped `enabled` setting, the task's interruption flag (constant here:
this model is the single-threaded execution of one run), and whether
`get_source_path()` returns an empty path. -/
structure Env where
  global : Global
  taskEnabled : Bool
  interrupted : Bool
  sourcePathEmpty : Bool
deriving DecidableEq

/-- `task::check_interrupted()`: throws the `interrupted` signal when the
flag is set. -/
def check_interrupted (flag : Bool) : Except Unit Unit :=
  if flag then .error () else .ok ()

/-- `task::clean_task()`: skipped when the global clean switch is off or the
task is disabled; otherwise invokes `do_clean` with the computed flags
unless they are `nothing`. -/
def clean_task (e : Env) : List Hook :=
  if e.global.clean = false then []
  else if e.taskEnabled = false then []
  else
    let cf := make_clean_flags e.global
    if cf ≠ clean_nothing then [Hook.doClean cf] else []

/-- `task::fetch()`: skipped when the global fetch switch is off or the task
is disabled; otherwise invokes `do_fetch`, checks interruption, and runs the
patcher tool when the task has a non-empty source path (the patcher runs
inside `run_tool`, whose interruption checks see the same constant flag,
already known false on this branch). -/
def task_fetch (e : Env) : List Hook × Except Unit Unit :=
  if e.global.fetch = false then ([], .ok ())
  else if e.taskEnabled = false then ([], .ok ())
  else
    match check_interrupted e.interrupted with
    | .error u => ([Hook.doFetch], .error u)
    | .ok _ =>
      if e.sourcePathEmpty = false then ([Hook.doFetch, Hook.patch], .ok ())
      else ([Hook.doFetch], .ok ())

/-- `task::build_and_install()`: skipped when the global build switch is off
or the task is disabled; otherwise invokes `do_build_and_install`. -/
def build_and_install (e : Env) : List Hook :=
  if e.global.build = false then []
  else if e.taskEnabled = false then []
  else [Hook.doBuildAndInstall]

/-- `task::run()`: returns immediately when the task is disabled; otherwise
clean, fetch, build in order with `check_interrupted` after each phase.
Returns the hooks invoked (in order) and either normal completion or the
`interrupted` signal. -/
def task_run (e : Env) : List Hook × Except Unit Unit :=
  if e.taskEnabled = false then ([], .ok ())
  else
    let h1 := clean_task e
    match check_interrupted e.interrupted with
    | .error u => (h1, .error u)
    | .ok _ =>
      let f := task_fetch e
      match f.2 with
      | .error u => (h1 ++ f.1, .error u)
      | .ok _ =>
        match check_interrupted e.interrupted with
        | .error u => (h1 ++ f.1, .error u)
        | .ok _ =>
          let h3 := build_and_install e
          match check_interrupted e.interrupted with
          | .error u => (h1 ++ f.1 ++ h3, .error u)
          | .ok _ => (h1 ++ f.1 ++ h3, .ok ())

/-! ### Tool registration and interruption (`task::run_tool_impl`,
`task::interrupt`) -/

/-- The task state shared across threads: the monotonic interruption flag
and the mutex-guarded list of currently running tools (tools identified by
their pointer, modelled as `Nat`). -/
structure TaskState where
  interrupted : Bool
  tools : List Nat
deriving DecidableEq

/-- `task::interrupt()`: under the tools lock, sets the interruption flag
and forwards `interrupt()` to every currently registered tool. The second
component records, in registry order, the tools that received one
`interrupt()` call; the function is total (never throws). -/
def task_interrupt (s : TaskState) : TaskState × List Nat :=
  ({ s with interrupted := true }, s.tools)

/-- How one `run_tool_impl` invocation can exit: the `interrupted` signal
thrown by one of the two `check_interrupted` calls, or a signal raised by
the tool's own `run`. -/
inductive RTErr where
  | interruptedSig
  | toolRaised
deriving DecidableEq

/-- Result of `run_tool_impl`: the state after the scoped deregistration
guard has run, the active set while the tool could run, whether the tool's
`run` was invoked, and how the call exited. -/
structure RunToolRes where
  state : TaskState
  toolsDuring : List Nat
  toolRan : Bool
  outcome : Except RTErr Unit

/-- `task::run_tool_impl(t)`: push the tool onto `tools_`, install a scoped
guard that erases it on every exit path (`std::erase` removes every equal
element), check interruption, delegate to the tool's `run` (outcome given
by `toolRun`), check interruption again. `flagSetDuringRun` is whether a
concurrent `interrupt()` set the flag while the tool ran, which the second
check observes. -/
def run_tool_impl (s : TaskState) (t : Nat) (toolRun : Except Unit Unit)
    (flagSetDuringRun : Bool) : RunToolRes :=
  let during := s.tools ++ [t]
  let popped := during.filter fun x => x != t
  if s.interrupted then
    ⟨⟨true, popped⟩, during, false, .error .interruptedSig⟩
  else
    match toolRun with
    | .error _ =>
        ⟨⟨flagSetDuringRun, popped⟩, during, true, .error .toolRaised⟩
    | .ok _ =>
        if flagSetDuringRun then
          ⟨⟨true, popped⟩, during, true, .error .interruptedSig⟩
        else
          ⟨⟨false, popped⟩, during, true, .ok ()⟩

/-! ### Per-thread context registry (`task::add_context_for_this_thread`,
`remove_context_for_this_thread`, `running_from_thread`) -/

/-- `task::add_context_for_this_thread(name)`: appends a record for the
given thread id (the registry is `contexts_`, a vector of
`thread_context`). -/
def add_context (reg : List (Nat × String)) (tid : Nat) (nm : String) :
    List (Nat × String) :=
  reg ++ [(tid, nm)]

/-- `task::remove_context_for_this_thread()`: erases the first record whose
thread id matches, no-op when absent. -/
def remove_context : List (Nat × String) → Nat → List (Nat × String)
  | [], _ => []
  | r :: rs, tid => if r.1 = tid then rs else r :: remove_context rs tid

/-- How the function run by `running_from_thread` exits: normal return, the
`bailed` signal, or the `interrupted` signal. -/
inductive FOutcome where
  | ok
  | bailedSig
  | interruptedSig
deriving DecidableEq

/-- The externally visible effect of `running_from_thread`: nothing, or the
broadcast `interrupt_all()` issued when `bailed` is caught. -/
inductive RFTEffect where
  | noEffect
  | broadcastInterrupt
deriving DecidableEq

/-- `task::running_from_thread(name, f)`: binds a context for the calling
thread, runs `f` under a scoped guard that removes the context on every
exit path, swallows `interrupted`, and on `bailed` broadcasts
`interrupt_all` to the task registry. Returns the final registry and the
effect. -/
def running_from_thread (reg : List (Nat × String)) (tid : Nat) (nm : String)
    (f : FOutcome) : List (Nat × String) × RFTEffect :=
  let reg1 := add_context reg tid nm
  let reg2 := remove_context reg1 tid
  match f with
  | .ok => (reg2, .noEffect)
  | .bailedSig => (reg2, .broadcastInterrupt)
  | .interruptedSig => (reg2, .noEffect)

/-- Number of registry records bound to a thread id. -/
def tidCount (reg : List (Nat × String)) (tid : Nat) : Nat :=
  (reg.filter fun r => r.1 == tid).length

/-! ### Parallel task groups (`parallel_tasks::enabled`,
`parallel_tasks::run`) -/

/-- `parallel_tasks::enabled()`: returns `true` unconditionally ("can't
disable parallel tasks"); the parameters stand for the global and
task-scoped configuration it deliberately does not consult. -/
def parallel_enabled (_g : Global) (_taskEnabledSetting : Bool) : Bool :=
  true

/-- `parallel_tasks::run()`: starts one worker per child, each running the
child's `run()` under `running_from_thread`, and joins them all before
returning; every child is driven regardless of configuration. The result
collects each child's run outcome. -/
def parallel_run (children : List Env) : List (List Hook × Except Unit Unit) :=
  children.map task_run

end Mob

namespace Mob

theorem charMatch_iff (x y : Char) :
    charMatch x y = true ↔
      (((x = '-' ∨ x = '_') ∧ (y = '-' ∨ y = '_')) ∨ cTolower x = cTolower y) := by
  unfold charMatch
  split
  · simp_all
  · simp_all

theorem strings_match_iff (a p : List Char) :
    strings_match a p = true ↔ specExactMatch a p := by
  unfold strings_match specExactMatch
  by_cases h : a.length = p.length
  · simp [h, List.all_eq_true, charMatch_iff]
  · simp [h]

/-- C3: for every alias list and every pattern containing no `'*'`,
`name_matches` returns true iff some alias has the pattern's length and
matches it position-wise under dash/underscore interchangeability and
case-insensitive comparison. -/
theorem name_matches_exact_correct
    (compile : List Char → Option (List Char → Bool))
    (names : List (List Char)) (pattern : List Char)
    (h : pattern.contains '*' = false) :
    name_matches compile names pattern = .ok true ↔
      ∃ a ∈ names, specExactMatch a pattern := by
  unfold name_matches
  simp only [h, Bool.false_eq_true, if_false, NameMatchResult.ok.injEq]
  unfold name_matches_string
  simp only [List.any_eq_true, strings_match_iff]

/-- Witness for C3: alias `"boost-di"` matches pattern `"Boost_DI"`. -/
theorem name_matches_exact_correct_witness :
    (['B','o','o','s','t','_','D','I'].contains '*' = false) ∧
      name_matches (fun _ => none) [['b','o','o','s','t','-','d','i']]
        ['B','o','o','s','t','_','D','I'] = .ok true :=
  ⟨by decide,
   (name_matches_exact_correct (fun _ => none)
      [['b','o','o','s','t','-','d','i']] ['B','o','o','s','t','_','D','I']
      (by decide)).mpr (by decide)⟩

/-- C4: for a pattern containing `'*'` whose compilation fails,
`name_matches` emits the diagnostic and raises the fatal `bailed` signal;
it never returns a boolean (in particular never `false`). -/
theorem name_matches_glob_failure_bails
    (compile : List Char → Option (List Char → Bool))
    (names : List (List Char)) (pattern : List Char)
    (hs : pattern.contains '*' = true)
    (hc : compile (fixGlob pattern) = none) :
    name_matches compile names pattern = .bailed (badGlobDiag pattern) ∧
      ∀ b, name_matches compile names pattern ≠ .ok b := by
  unfold name_matches name_matches_glob
  have hm : '*' ∈ pattern := by simpa using hs
  simp [hm, hc]

/-- Witness for C4: the always-failing engine on pattern `"*"` bails. -/
theorem name_matches_glob_failure_bails_witness :
    (['*'].contains '*' = true) ∧
      name_matches (fun _ => none) [] ['*'] = .bailed (badGlobDiag ['*']) :=
  ⟨by decide,
   (name_matches_glob_failure_bails (fun _ => none) [] ['*']
      (by decide) rfl).1⟩

/-- C5: `make_clean_flags` is exactly the bitwise OR of the flags whose
global switch is true (`nothing` when all are false), `to_string` of the
result is the pipe-joined list of set flag names in the fixed order
redownload, reextract, reconfigure, rebuild, and the concrete instance
{redownload, rebuild} prints as `"redownload|rebuild"`. -/
theorem make_clean_flags_correct (g : Global) :
    make_clean_flags g =
      ((if g.redownload then clean_redownload else clean_nothing) |||
       (if g.reextract then clean_reextract else clean_nothing) |||
       (if g.reconfigure then clean_reconfigure else clean_nothing) |||
       (if g.rebuild then clean_rebuild else clean_nothing)) ∧
    to_string (make_clean_flags g) =
      String.intercalate "|"
        ((if g.redownload then ["redownload"] else []) ++
         (if g.reextract then ["reextract"] else []) ++
         (if g.reconfigure then ["reconfigure"] else []) ++
         (if g.rebuild then ["rebuild"] else [])) ∧
    make_clean_flags ⟨true, false, false, true, false, false, false⟩ =
      (clean_redownload ||| clean_rebuild) ∧
    to_string (clean_redownload ||| clean_rebuild) = "redownload|rebuild" := by
  obtain ⟨a, b, c, d, e, f, k⟩ := g
  cases a <;> cases b <;> cases c <;> cases d <;> cases e <;> cases f <;>
    cases k <;> decide

/-- C1: in clone-or-pull mode with non-empty URL and destination, absence
of the `.git` marker (at the point `do_clone` checks it) means exactly one
clone and no pull; presence means exactly one pull and no clone. -/
theorem git_clone_or_pull_exclusive (p : GitParams) (g : Global) (m : Bool)
    (hu : p.url ≠ "") (hw : p.whereDir ≠ "") :
    (marker_after_prestep g m = false →
      (git_do_run p .clone_or_pull2 g m).1.count GitEvent.cloneExec = 1 ∧
      (git_do_run p .clone_or_pull2 g m).1.count GitEvent.pullExec = 0) ∧
    (marker_after_prestep g m = true →
      (git_do_run p .clone_or_pull2 g m).1.count GitEvent.pullExec = 1 ∧
      (git_do_run p .clone_or_pull2 g m).1.count GitEvent.cloneExec = 0) := by
  unfold git_do_run marker_after_prestep do_clone_or_pull do_clone do_pull
  cases hgr : (g.redownload || g.reextract) <;> cases m <;>
    simp [hu, hw, hgr, List.count_cons, List.count_append]

/-- Witness for C1: empty destination, clone-or-pull mode, all switches off:
exactly one clone is recorded. -/
theorem git_clone_or_pull_exclusive_witness :
    ("https://example/repo.git" : String) ≠ "" ∧
      (git_do_run ⟨"https://example/repo.git", "main", "dest"⟩
        .clone_or_pull2 ⟨false, false, false, false, false, false, false⟩
        false).1.count GitEvent.cloneExec = 1 :=
  ⟨by decide,
   ((git_clone_or_pull_exclusive
      ⟨"https://example/repo.git", "main", "dest"⟩
      ⟨false, false, false, false, false, false, false⟩ false
      (by decide) (by decide)).1 (by decide)).1⟩

/-- C2: an empty URL or an empty destination makes `do_run` bail out with
the configuration error before performing any directory deletion or
clone/pull operation (the event list is empty; no mode branch runs). -/
theorem git_missing_params_bails (p : GitParams) (op : GitOps) (g : Global)
    (m : Bool) (h : p.url = "" ∨ p.whereDir = "") :
    git_do_run p op g m = ([], .error "git missing parameters") := by
  unfold git_do_run
  rw [if_pos h]

/-- Witness for C2: empty URL bails out with no operations. -/
theorem git_missing_params_bails_witness :
    (("" : String) = "" ∨ ("dest" : String) = "") ∧
      git_do_run ⟨"", "main", "dest"⟩ .clone
        ⟨true, false, false, false, false, false, false⟩ true =
        ([], .error "git missing parameters") :=
  ⟨Or.inl rfl,
   git_missing_params_bails ⟨"", "main", "dest"⟩ .clone
     ⟨true, false, false, false, false, false, false⟩ true (Or.inl rfl)⟩

/-- C6: `run()` on a disabled task invokes none of the clean/fetch/build
hooks (the invoked-hook list is empty) and returns normally. -/
theorem disabled_task_runs_no_hooks (e : Env) (h : e.taskEnabled = false) :
    task_run e = ([], .ok ()) := by
  unfold task_run
  rw [if_pos h]

/-- Witness for C6: a disabled task with every global switch on still runs
no hooks. -/
theorem disabled_task_runs_no_hooks_witness :
    (Env.mk ⟨true, true, true, true, true, true, true⟩ false false
        false).taskEnabled = false ∧
      task_run ⟨⟨true, true, true, true, true, true, true⟩, false, false,
        false⟩ = ([], .ok ()) :=
  ⟨rfl,
   disabled_task_runs_no_hooks
     ⟨⟨true, true, true, true, true, true, true⟩, false, false, false⟩ rfl⟩

/-- C7: `run_tool` registers the tool into the active set before running,
deregisters it on every exit path (interrupted before, tool raised, flag set
during the run, normal completion), checks the interruption flag immediately
before and after the tool's run, and never invokes the tool's run when the
flag is already set. -/
theorem run_tool_registers_and_deregisters (s : TaskState) (t : Nat)
    (toolRun : Except Unit Unit) (flagDuring : Bool) (h : t ∉ s.tools) :
    (run_tool_impl s t toolRun flagDuring).toolsDuring = s.tools ++ [t] ∧
    t ∈ (run_tool_impl s t toolRun flagDuring).toolsDuring ∧
    (run_tool_impl s t toolRun flagDuring).state.tools = s.tools ∧
    (s.interrupted = true →
      (run_tool_impl s t toolRun flagDuring).toolRan = false ∧
      (run_tool_impl s t toolRun flagDuring).outcome =
        .error .interruptedSig) ∧
    (s.interrupted = false → toolRun = .ok () → flagDuring = true →
      (run_tool_impl s t toolRun flagDuring).outcome =
        .error .interruptedSig) := by
  have hfil : ((s.tools ++ [t]).filter fun x => x != t) = s.tools := by
    rw [List.filter_append]
    have h1 : (s.tools.filter fun x => x != t) = s.tools :=
      List.filter_eq_self.mpr fun a ha => by
        simp only [bne_iff_ne, ne_eq, decide_eq_true_eq]
        exact fun hat => h (hat ▸ ha)
    simp [h1]
  unfold run_tool_impl
  cases hi : s.interrupted <;> rcases toolRun with u | u <;>
    cases flagDuring <;> simp [hfil]

/-- Witness for C7: with the flag already set, the tool never runs and the
registry is restored. -/
theorem run_tool_registers_and_deregisters_witness :
    ((5 : Nat) ∉ ([] : List Nat)) ∧
      (run_tool_impl ⟨true, []⟩ 5 (.ok ()) false).toolRan = false ∧
      (run_tool_impl ⟨true, []⟩ 5 (.ok ()) false).state.tools = [] :=
  ⟨by decide,
   ((run_tool_registers_and_deregisters ⟨true, []⟩ 5 (.ok ()) false
      (by decide)).2.2.2.1 rfl).1,
   (run_tool_registers_and_deregisters ⟨true, []⟩ 5 (.ok ()) false
      (by decide)).2.2.1⟩

/-- C8: `interrupt()` is idempotent and total: each call sets the flag to
true and forwards one `interrupt()` to exactly the tools registered at the
time of that call; a second call leaves the flag true; and the other
state-changing operation of the model (`run_tool_impl`) never resets a set
flag. -/
theorem interrupt_idempotent (s : TaskState) :
    (task_interrupt s).1.interrupted = true ∧
    (task_interrupt (task_interrupt s).1).1.interrupted = true ∧
    (task_interrupt s).2 = s.tools ∧
    (task_interrupt (task_interrupt s).1).2 = (task_interrupt s).1.tools ∧
    (task_interrupt s).1.tools = s.tools ∧
    (∀ t toolRun flagDuring, s.interrupted = true →
      (run_tool_impl s t toolRun flagDuring).state.interrupted = true) := by
  refine ⟨rfl, rfl, rfl, rfl, rfl, ?_⟩
  intro t toolRun flagDuring hi
  unfold run_tool_impl
  simp [hi]

/-- Witness for C8: two interrupts on a task with one registered tool. -/
theorem interrupt_idempotent_witness :
    (task_interrupt (task_interrupt ⟨false, [7]⟩).1).1.interrupted = true ∧
      (task_interrupt ⟨false, [7]⟩).2 = [7] ∧
      (run_tool_impl ⟨true, [7]⟩ 3 (.ok ()) false).state.interrupted = true :=
  ⟨(interrupt_idempotent ⟨false, [7]⟩).2.1,
   (interrupt_idempotent ⟨false, [7]⟩).2.2.1,
   (interrupt_idempotent ⟨true, [7]⟩).2.2.2.2.2 3 (.ok ()) false rfl⟩

theorem remove_context_append (reg : List (Nat × String)) (tid : Nat)
    (nm : String) (h : ∀ r ∈ reg, r.1 ≠ tid) :
    remove_context (reg ++ [(tid, nm)]) tid = reg := by
  induction reg with
  | nil => simp [remove_context]
  | cons r rs ih =>
    have h1 : r.1 ≠ tid := h r (by simp)
    have h2 : ∀ x ∈ rs, x.1 ≠ tid := fun x hx => h x (by simp [hx])
    simp [remove_context, h1, ih h2]

theorem tidCount_eq_zero (reg : List (Nat × String)) (tid : Nat) :
    tidCount reg tid = 0 ↔ ∀ r ∈ reg, r.1 ≠ tid := by
  simp [tidCount, List.length_eq_zero, List.filter_eq_nil_iff]

/-- C9: for a thread not currently bound in the task's context registry,
binding it yields exactly one record for that thread id, and
`running_from_thread` removes it again on every exit path (normal return,
`bailed`, `interrupted`), restoring the registry. -/
theorem context_registry_unique_and_restored (reg : List (Nat × String))
    (tid : Nat) (nm : String) (f : FOutcome)
    (h : tidCount reg tid = 0) :
    tidCount (add_context reg tid nm) tid = 1 ∧
    (running_from_thread reg tid nm f).1 = reg ∧
    tidCount (running_from_thread reg tid nm f).1 tid = 0 := by
  have hall : ∀ r ∈ reg, r.1 ≠ tid := (tidCount_eq_zero reg tid).mp h
  have hrem : remove_context (reg ++ [(tid, nm)]) tid = reg :=
    remove_context_append reg tid nm hall
  have hrun : (running_from_thread reg tid nm f).1 = reg := by
    unfold running_from_thread add_context
    cases f <;> simp [hrem]
  refine ⟨?_, hrun, by rw [hrun]; exact h⟩
  unfold tidCount add_context
  unfold tidCount at h
  rw [List.filter_append, List.length_append, h]
  simp

/-- Witness for C9: thread 2 binds and unbinds cleanly over a registry that
holds the creating thread's record, across the `bailed` exit path. -/
theorem context_registry_unique_and_restored_witness :
    tidCount [(1, "main")] 2 = 0 ∧
      tidCount (add_context [(1, "main")] 2 "worker") 2 = 1 ∧
      (running_from_thread [(1, "main")] 2 "worker" .bailedSig).1 =
        [(1, "main")] :=
  ⟨by decide,
   (context_registry_unique_and_restored [(1, "main")] 2 "worker" .bailedSig
      (by decide)).1,
   (context_registry_unique_and_restored [(1, "main")] 2 "worker" .bailedSig
      (by decide)).2.1⟩

/-- C10: a parallel group's `enabled()` is true for every configuration
state, and its `run()` drives every child: the result has one entry per
child and contains each child's run outcome. -/
theorem parallel_group_always_enabled (g : Global) (te : Bool)
    (children : List Env) :
    parallel_enabled g te = true ∧
    (parallel_run children).length = children.length ∧
    (∀ e ∈ children, task_run e ∈ parallel_run children) := by
  refine ⟨rfl, by simp [parallel_run], ?_⟩
  intro e he
  unfold parallel_run
  exact List.mem_map_of_mem task_run he

/-- Witness for C10: a one-child group is enabled and runs its child. -/
theorem parallel_group_always_enabled_witness :
    parallel_enabled ⟨false, false, false, false, false, false, false⟩
        false = true ∧
      task_run ⟨⟨false, false, false, false, false, false, false⟩, false,
          false, true⟩ ∈
        parallel_run [⟨⟨false, false, false, false, false, false, false⟩,
          false, false, true⟩] :=
  ⟨(parallel_group_always_enabled
      ⟨false, false, false, false, false, false, false⟩ false []).1,
   (parallel_group_always_enabled
      ⟨false, false, false, false, false, false, false⟩ false
      [⟨⟨false, false, false, false, false, false, false⟩, false, false,
        true⟩]).2.2
     ⟨⟨false, false, false, false, false, false, false⟩, false, false, true⟩
     (by simp)⟩

end Mob
